import Mathlib

/-!
Shallow embedding of `antenati.py` (Portale Antenati gallery downloader).

The pure logic of the script is translated directly:
* `parse_int`, `splitOnce`, `convertPart`, `parseParts`, `convert` embed
  `PageListParamType.convert` (selection-text parsing);
* `validatePages` embeds the page-range check inlined in `main`;
* `pyIdx` embeds Python list indexing (including negative indices), used by
  `AntenatiDownloader.run` as `self.canvases[p - 1]`;
* `getArchiveId`, `getIiifManifest`, `getMetadataContent`, `generateDirname`,
  `mkDownloader` embed `AntenatiDownloader.__init__` and its helpers;
* `threadMain` embeds `AntenatiDownloader.__thread_main`;
* `stepOutcome` / `runLoop` embed the `as_completed` consumption loop of
  `AntenatiDownloader.run`; `mainModel` embeds `main`.

Network and filesystem effects are abstracted into an `Env` record of response
functions: `Env.fetch` stands for `pool.request('GET', url)` (body already
decoded with the advertised charset), `Env.parseJson` for `json.loads` on the
manifest body (assumed well formed; no claim concerns JSON parse errors),
`Env.imageFetch` for the image GET, and `Env.guessExtension` for
`mimetypes.guess_extension`.  `slugify` and the interactive `check_dir` are
excluded collaborators and are modelled as the identity / as a no-op.
-/

/-- A decoded HTTP reply: status code and body text.  Embeds the pair
(`http_reply.status`, `http_reply.data.decode(charset)`) used by the script. -/
structure HttpResp where
  status : Nat
  body : String
deriving DecidableEq

/-- One canvas of the IIIF manifest: its label and the image resource locator
`canvas['images'][0]['resource']['@id']`. -/
structure Canvas where
  label : String
  url : String
deriving DecidableEq

/-- One entry of the manifest's `metadata` sequence: a label/value pair. -/
structure MetaItem where
  label : String
  value : String
deriving DecidableEq

/-- The parsed IIIF manifest restricted to the fields the script reads:
`manifest['sequences'][0]['canvases']` and `manifest['metadata']`. -/
structure Manifest where
  canvases : List Canvas
  metadata : List MetaItem
deriving DecidableEq

/-- An image GET reply: status, parsed main content type
(`cgi.parse_header(headers['Content-Type'])[0]`) and body bytes. -/
structure ImageResp where
  status : Nat
  contentType : String
  data : String
deriving DecidableEq

/-- The external world of the run: the two page/manifest GETs, JSON decoding,
the per-image GET and the `mimetypes` extension table. -/
structure Env where
  fetch : String → HttpResp
  parseJson : String → Manifest
  imageFetch : String → ImageResp
  guessExtension : String → Option String

/-- Errors raised as `RuntimeError` by the script (structured instead of the
formatted message strings). -/
inductive AErr
  | archiveIdNotFound (url : String)
  | httpError (status : Nat)
  | manifestNotFound
  | manifestLineInvalid
  | metadataMissing (label : String)
  | pageOutOfRange (p : Int)
deriving DecidableEq

/-- Per-task `RuntimeError`s of `__thread_main`. -/
inductive TaskErr
  | httpError (url : String) (status : Nat)
  | unknownExtension (url : String) (mime : String)
deriving DecidableEq

/-- Result of one download task: the byte count written, or the task's error. -/
inductive TaskResult
  | ok (size : Nat)
  | err (e : TaskErr)
deriving DecidableEq

/-- `true` exactly on successful task results. -/
def isOk : TaskResult → Bool
  | .ok _ => true
  | .err _ => false

/-! ## Selection-text parsing (`PageListParamType.convert`) -/

/-- Split a character list at every occurrence of `sep`; embeds Python
`str.split(sep)` for a one-character separator (as used with `","` and
`"\n"`).  `acc` holds the reversed characters of the current field. -/
def splitCharAux (sep : Char) : List Char → List Char → List (List Char)
  | [], acc => [acc.reverse]
  | c :: rest, acc =>
    if c = sep then acc.reverse :: splitCharAux sep rest []
    else splitCharAux sep rest (c :: acc)

/-- Python `s.split(sep)` for a one-character separator, on strings. -/
def splitOnChar (sep : Char) (s : String) : List String :=
  (splitCharAux sep s.data []).map String.mk

/-- Split at the first occurrence of `sep` only; embeds Python
`str.split(sep, 1)`. -/
def splitOnceAux (sep : Char) : List Char → List Char → List (List Char)
  | [], acc => [acc.reverse]
  | c :: rest, acc =>
    if c = sep then [acc.reverse, rest]
    else splitOnceAux sep rest (c :: acc)

/-- Python `part.split("-", 1)` as used on each comma-separated token. -/
def splitOnce (s : String) : List String :=
  (splitOnceAux '-' s.data []).map String.mk

/-- Strip leading and trailing whitespace from a character list. -/
def trimChars (cs : List Char) : List Char :=
  ((cs.dropWhile Char.isWhitespace).reverse.dropWhile Char.isWhitespace).reverse

/-- Value of a list of decimal digit characters. -/
def digitsVal (cs : List Char) : Int :=
  cs.foldl (fun acc c => acc * 10 + ((c.toNat - 48 : Nat) : Int)) 0

/-- Embeds the inner `parse_int` of `PageListParamType.convert`, i.e. Python
`int(value)` on a token: optional surrounding whitespace, optional sign,
then decimal digits; anything else fails (`self.fail`, a fatal usage error,
is `none`). -/
def parse_int (s : String) : Option Int :=
  match trimChars s.data with
  | [] => none
  | '-' :: ds => if ds ≠ [] ∧ ds.all Char.isDigit then some (-(digitsVal ds)) else none
  | '+' :: ds => if ds ≠ [] ∧ ds.all Char.isDigit then some (digitsVal ds) else none
  | ds => if ds.all Char.isDigit then some (digitsVal ds) else none

/-- Python `range(a, b + 1)` materialised as a list, as used by
`pages.extend(range(index_range[0], index_range[1] + 1))`.  Empty whenever
`b < a`. -/
def pyRange (a b : Int) : List Int :=
  (List.range (b + 1 - a).toNat).map (fun k => a + k)

/-- Parse every hyphen piece of one comma token with `parse_int`, failing on
the first bad piece (the list comprehension
`[parse_int(p) for p in part.split("-", 1)]`). -/
def parseInts : List String → Option (List Int)
  | [] => some []
  | t :: ts =>
    match parse_int t with
    | none => none
    | some a =>
      match parseInts ts with
      | none => none
      | some rest => some (a :: rest)

/-- Contribution of one comma-separated token: a two-element split is an
inclusive range, otherwise the single parsed integer (`index_range[0]`). -/
def convertPart (part : String) : Option (List Int) :=
  match parseInts (splitOnce part) with
  | none => none
  | some [a, b] => some (pyRange a b)
  | some (a :: _) => some [a]
  | some [] => none

/-- The accumulation loop of `convert`: `pages` starts empty and each token
extends it; a bad token aborts the whole parse. -/
def parseParts : List String → Option (List Int)
  | [] => some []
  | p :: ps =>
    match convertPart p with
    | none => none
    | some l =>
      match parseParts ps with
      | none => none
      | some rest => some (l ++ rest)

/-- `PageListParamType.convert` on a selection text: split on commas and
accumulate every token's indices. -/
def convert (s : String) : Option (List Int) :=
  parseParts (splitOnChar ',' s)

/-! ## Page-range validation and selection (`main`, `AntenatiDownloader.run`) -/

/-- The validation loop inlined in `main`:
`for p in pages: if p < 0 or p >= len(downloader.canvases): raise ...`.
`len` is the catalog length. -/
def validatePages (pages : List Int) (len : Nat) : Except AErr Unit :=
  match pages with
  | [] => .ok ()
  | p :: ps =>
    if p < 0 ∨ (len : Int) ≤ p then .error (.pageOutOfRange p)
    else validatePages ps len

/-- Python list indexing `l[i]`: negative indices count from the end;
out-of-bounds is `none` (an `IndexError`). -/
def pyIdx (l : List α) (i : Int) : Option α :=
  let j : Int := if i < 0 then i + l.length else i
  if j < 0 then none else l.get? j.toNat

/-- The selection comprehension of `run`:
`[self.canvases[p - 1] for p in pages]`. -/
def runSelect : List Int → List Canvas → Option (List Canvas)
  | [], _ => some []
  | p :: ps, cs =>
    match pyIdx cs (p - 1) with
    | none => none
    | some c =>
      match runSelect ps cs with
      | none => none
      | some rest => some (c :: rest)

/-! ## Manifest resolution (`AntenatiDownloader.__get_iiif_manifest` etc.) -/

/-- `true` when `pat` occurs as a contiguous run inside `s`; embeds Python's
`'manifestId' in line`. -/
def occursIn (pat : List Char) : List Char → Bool
  | [] => pat.isEmpty
  | c :: rest => pat.isPrefixOf (c :: rest) || occursIn pat rest

/-- Characters admitted by the manifest-URL character class
`[-A-Za-z0-9.:/]`. -/
def allowedUrlChar (c : Char) : Bool :=
  c.isAlpha || c.isDigit || c = '.' || c = ':' || c = '/' || c = '-'

/-- Leftmost match of `re.search(r'\'([-A-Za-z0-9.:/]*)\'', line)`: scan for a
single quote whose maximal run of admitted characters is closed by another
single quote, and return the captured group.  (Backtracking cannot shorten the
greedy run, because the class excludes the quote itself.) -/
def findQuoted : List Char → Option String
  | [] => none
  | c :: rest =>
    if c = '\'' then
      let run := rest.takeWhile allowedUrlChar
      match rest.drop run.length with
      | '\'' :: _ => some (String.mk run)
      | _ => findQuoted rest
    else findQuoted rest

/-- First maximal run of decimal digits in a character list. -/
def firstDigitRun : List Char → Option (List Char)
  | [] => none
  | c :: rest =>
    if c.isDigit then some (c :: rest.takeWhile Char.isDigit)
    else firstDigitRun rest

/-- `AntenatiDownloader.__get_archive_id`: the first run of digits in the
gallery URL (`re.search(r'(\d+)', url)`), else a `RuntimeError`. -/
def getArchiveId (url : String) : Except AErr String :=
  match firstDigitRun url.data with
  | none => .error (.archiveIdNotFound url)
  | some ds => .ok (String.mk ds)

/-- `AntenatiDownloader.__get_iiif_manifest`: GET the gallery page, require
status 200, find the first line containing `manifestId`, extract the quoted
manifest URL, GET it, require status 200, and decode the body as JSON
(decoding abstracted into `Env.parseJson`). -/
def getIiifManifest (env : Env) (url : String) : Except AErr Manifest :=
  let r1 := env.fetch url
  if r1.status ≠ 200 then .error (.httpError r1.status)
  else
    match (splitOnChar '\n' r1.body).find? (fun l => occursIn "manifestId".data l.data) with
    | none => .error .manifestNotFound
    | some line =>
      match findQuoted line.data with
      | none => .error .manifestLineInvalid
      | some murl =>
        let r2 := env.fetch murl
        if r2.status ≠ 200 then .error (.httpError r2.status)
        else .ok (env.parseJson r2.body)

/-- `AntenatiDownloader.__get_metadata_content`: value of the first metadata
item with the given label, else a `RuntimeError`. -/
def getMetadataContent (m : Manifest) (label : String) : Except AErr String :=
  match m.metadata.find? (fun i => i.label = label) with
  | some i => .ok i.value
  | none => .error (.metadataMissing label)

/-- `AntenatiDownloader.__generate_dirname`: join the three required metadata
fields and the archive id (`slugify`, an excluded collaborator, is modelled as
the identity on the joined text). -/
def generateDirname (m : Manifest) (archiveId : String) : Except AErr String :=
  match getMetadataContent m "Contesto archivistico" with
  | .error e => .error e
  | .ok ctx =>
    match getMetadataContent m "Titolo" with
    | .error e => .error e
    | .ok year =>
      match getMetadataContent m "Tipologia" with
      | .error e => .error e
      | .ok typ => .ok (ctx ++ "-" ++ year ++ "-" ++ typ ++ "-" ++ archiveId)

/-- The resolved downloader state built by `AntenatiDownloader.__init__`. -/
structure Downloader where
  archiveUrl : String
  archiveId : String
  manifest : Manifest
  canvases : List Canvas
  dirname : String
  galleryLength : Nat
  gallerySize : Nat
deriving DecidableEq

/-- `AntenatiDownloader.__init__`: resolve the archive id, the manifest, the
canvases and the directory name, in source order; `gallery_size` starts at 0. -/
def mkDownloader (env : Env) (url : String) : Except AErr Downloader :=
  match getArchiveId url with
  | .error e => .error e
  | .ok archiveId =>
    match getIiifManifest env url with
    | .error e => .error e
    | .ok manifest =>
      match generateDirname manifest archiveId with
      | .error e => .error e
      | .ok dirname =>
        .ok { archiveUrl := url, archiveId := archiveId, manifest := manifest,
              canvases := manifest.canvases, dirname := dirname,
              galleryLength := manifest.canvases.length, gallerySize := 0 }

/-! ## One download task (`AntenatiDownloader.__thread_main`) -/

/-- `AntenatiDownloader.__thread_main` on one canvas: GET the image, require
status 200, require a known extension for the content type, write the body
(file write abstracted) and return the byte count `len(http_reply.data)`. -/
def threadMain (env : Env) (c : Canvas) : TaskResult :=
  let resp := env.imageFetch c.url
  if resp.status ≠ 200 then .err (.httpError c.url resp.status)
  else
    match env.guessExtension resp.contentType with
    | none => .err (.unknownExtension c.url resp.contentType)
    | some _ => .ok resp.data.length

/-! ## The result-consumption loop of `AntenatiDownloader.run` -/

/-- Aggregator state: `gallery_size`, the progress counter, and the error
lines written through `progress.write` (label and cause, in arrival order). -/
structure RunState where
  gallerySize : Nat
  progress : Nat
  messages : List (String × TaskErr)
deriving DecidableEq

/-- One iteration of the `as_completed` loop: bump the progress bar, then add
the byte count on success or log `f'{label} error ({exc})'` on failure. -/
def stepOutcome (st : RunState) (t : Canvas × TaskResult) : RunState :=
  match t.2 with
  | .ok n => { st with progress := st.progress + 1, gallerySize := st.gallerySize + n }
  | .err e => { st with progress := st.progress + 1, messages := st.messages ++ [(t.1.label, e)] }

/-- Consume a stream of task completions (one pair per submitted task, in an
arbitrary arrival order). -/
def runLoop : List (Canvas × TaskResult) → RunState → RunState
  | [], st => st
  | t :: ts, st => runLoop ts (stepOutcome st t)

/-- Sum of the byte counts of the successful outcomes of a completion list. -/
def sumSuccess : List (Canvas × TaskResult) → Nat
  | [] => 0
  | (_, .ok n) :: ts => n + sumSuccess ts
  | (_, .err _) :: ts => sumSuccess ts

/-- The failure lines produced by a completion list, in order: one per failed
task, tagged with that task's label. -/
def errMessages : List (Canvas × TaskResult) → List (String × TaskErr)
  | [] => []
  | (_, .ok _) :: ts => errMessages ts
  | (c, .err e) :: ts => (c.label, e) :: errMessages ts

/-- The canvases `run` submits: the selected ones for an explicit page set,
the full catalog when `pages is None`. -/
def planCanvases (d : Downloader) (pages? : Option (List Int)) : Option (List Canvas) :=
  match pages? with
  | some ps => runSelect ps d.canvases
  | none => some d.canvases

/-- `AntenatiDownloader.run` with workers abstracted away: submit every
planned canvas, obtain its `threadMain` result, and consume the completions
(modelled in submission order; the aggregation below is proved
order-independent where a claim needs it).  `none` marks the unreachable
`IndexError` of an invalid subscript. -/
def runModel (env : Env) (d : Downloader) (pages? : Option (List Int)) : Option RunState :=
  (planCanvases d pages?).map
    (fun selected => runLoop (selected.map (fun c => (c, threadMain env c))) ⟨0, 0, []⟩)

/-! ## The command entry point (`main`) -/

/-- Observable outcome of one invocation: the process exit status, the fatal
error (printed once on stderr by the `except RuntimeError` handler) if any,
the number of download tasks submitted, and the final aggregator state. -/
structure MainResult where
  exitCode : Nat
  fatalErr : Option AErr
  tasksCreated : Nat
  runState : Option RunState
deriving DecidableEq

/-- The body of `main` after argument parsing: build the downloader, validate
an explicit selection against `len(downloader.canvases)`, collapse it with
`set(pages)` (modelled as `dedup`; iteration order is not observable in the
claims), run, and print the summary.  A raised `RuntimeError` is caught,
reported, and `main` returns normally — exit status 0. -/
def mainBody (env : Env) (url : String) (pages? : Option (List Int)) : MainResult :=
  match mkDownloader env url with
  | .error e => { exitCode := 0, fatalErr := some e, tasksCreated := 0, runState := none }
  | .ok d =>
    match pages? with
    | none =>
      match runModel env d none with
      | none => { exitCode := 1, fatalErr := none, tasksCreated := 0, runState := none }
      | some st =>
        { exitCode := 0, fatalErr := none, tasksCreated := d.canvases.length,
          runState := some st }
    | some ps =>
      match validatePages ps d.canvases.length with
      | .error e => { exitCode := 0, fatalErr := some e, tasksCreated := 0, runState := none }
      | .ok _ =>
        let pset := ps.dedup
        match runModel env d (some pset) with
        | none => { exitCode := 1, fatalErr := none, tasksCreated := 0, runState := none }
        | some st =>
          { exitCode := 0, fatalErr := none, tasksCreated := pset.length,
            runState := some st }

/-- `main`: `click` converts the optional pages argument with
`PageListParamType.convert` before the command body runs; a conversion
failure is a usage error that exits with status 2 and performs no request. -/
def mainModel (env : Env) (url : String) (pagesText : Option String) : MainResult :=
  match pagesText with
  | none => mainBody env url none
  | some t =>
    match convert t with
    | none => { exitCode := 2, fatalErr := none, tasksCreated := 0, runState := none }
    | some ps => mainBody env url (some ps)

/-- From the spec: the 2xx success class of HTTP statuses. -/
def is2xx (s : Nat) : Bool := decide (200 ≤ s) && decide (s < 300)

/-! ## Concrete fixtures used by witnesses and counterexamples -/

/-- A gallery page body holding a `manifestId` line with a quoted URL. -/
def galleryBodyOK : String :=
  "<html>\n  var manifestId = 'https://iiif.example.org/m-1.json';\n</html>"

/-- A two-canvas manifest carrying the three required metadata fields. -/
def manifestOK : Manifest :=
  { canvases := [⟨"page 1", "https://img.example/1"⟩, ⟨"page 2", "https://img.example/2"⟩],
    metadata := [⟨"Contesto archivistico", "Archivio di Stato"⟩,
                 ⟨"Titolo", "1900"⟩, ⟨"Tipologia", "Registro"⟩] }

/-- A well-behaved world: both GETs succeed, image 1 downloads 4 bytes of
JPEG, image 2 answers 404. -/
def envOK : Env :=
  { fetch := fun _ => ⟨200, galleryBodyOK⟩,
    parseJson := fun _ => manifestOK,
    imageFetch := fun u =>
      if u = "https://img.example/1" then ⟨200, "image/jpeg", "AAAA"⟩
      else ⟨404, "text/html", ""⟩,
    guessExtension := fun m => if m = "image/jpeg" then some ".jpg" else none }

/-- The gallery URL of the fixtures. -/
def urlOK : String := "https://antenati.example/gallery/12345"

/-- The downloader that `mkDownloader envOK urlOK` resolves to. -/
def dOK : Downloader :=
  { archiveUrl := urlOK, archiveId := "12345", manifest := manifestOK,
    canvases := manifestOK.canvases,
    dirname := "Archivio di Stato-1900-Registro-12345",
    galleryLength := 2, gallerySize := 0 }

/-- A world whose gallery fetch answers 404. -/
def env404 : Env :=
  { fetch := fun _ => ⟨404, ""⟩, parseJson := fun _ => manifestOK,
    imageFetch := fun _ => ⟨404, "", ""⟩, guessExtension := fun _ => none }

/-- A world whose gallery page contains no `manifestId` line. -/
def envNoMarker : Env :=
  { envOK with fetch := fun _ => ⟨200, "<html>\nnothing here\n</html>"⟩ }

/-- A world whose manifest lacks the required metadata fields. -/
def envNoMeta : Env :=
  { envOK with parseJson := fun _ => { manifestOK with metadata := [] } }

/-- A world answering HTTP 201 (a 2xx status other than 200) everywhere. -/
def env201 : Env :=
  { envOK with
    fetch := fun _ => ⟨201, galleryBodyOK⟩
    imageFetch := fun _ => ⟨201, "image/jpeg", "AA"⟩ }

/-! ## Aggregation lemmas for the `run` consumption loop -/

/-- Unfolding lemma: consuming one completion then the rest. -/
theorem runLoop_cons (t : Canvas × TaskResult) (ts : List (Canvas × TaskResult))
    (st : RunState) : runLoop (t :: ts) st = runLoop ts (stepOutcome st t) := rfl

/-- The final `gallery_size` is the initial one plus the successful bytes. -/
theorem runLoop_gallerySize (ts : List (Canvas × TaskResult)) (st : RunState) :
    (runLoop ts st).gallerySize = st.gallerySize + sumSuccess ts := by
  induction ts generalizing st with
  | nil => simp [runLoop, sumSuccess]
  | cons t ts ih =>
    obtain ⟨c, r⟩ := t
    cases r with
    | ok n => simp [runLoop, stepOutcome, sumSuccess, ih]; omega
    | err e => simp [runLoop, stepOutcome, sumSuccess, ih]

/-- The progress counter advances once per consumed completion. -/
theorem runLoop_progress (ts : List (Canvas × TaskResult)) (st : RunState) :
    (runLoop ts st).progress = st.progress + ts.length := by
  induction ts generalizing st with
  | nil => simp [runLoop]
  | cons t ts ih =>
    obtain ⟨c, r⟩ := t
    cases r with
    | ok n => simp [runLoop, stepOutcome, ih]; omega
    | err e => simp [runLoop, stepOutcome, ih]; omega

/-- The failure lines of the loop are exactly `errMessages` of the stream. -/
theorem runLoop_messages (ts : List (Canvas × TaskResult)) (st : RunState) :
    (runLoop ts st).messages = st.messages ++ errMessages ts := by
  induction ts generalizing st with
  | nil => simp [runLoop, errMessages]
  | cons t ts ih =>
    obtain ⟨c, r⟩ := t
    cases r with
    | ok n => simp [runLoop, stepOutcome, errMessages, ih]
    | err e => simp [runLoop, stepOutcome, errMessages, ih]

/-- Successful bytes split over concatenated streams. -/
theorem sumSuccess_append (xs ys : List (Canvas × TaskResult)) :
    sumSuccess (xs ++ ys) = sumSuccess xs + sumSuccess ys := by
  induction xs with
  | nil => simp [sumSuccess]
  | cons t ts ih =>
    obtain ⟨c, r⟩ := t
    cases r with
    | ok n => simp [sumSuccess, ih]; omega
    | err e => simp [sumSuccess, ih]

/-- Failure lines split over concatenated streams. -/
theorem errMessages_append (xs ys : List (Canvas × TaskResult)) :
    errMessages (xs ++ ys) = errMessages xs ++ errMessages ys := by
  induction xs with
  | nil => simp [errMessages]
  | cons t ts ih =>
    obtain ⟨c, r⟩ := t
    cases r with
    | ok n => simp [errMessages, ih]
    | err e => simp [errMessages, ih]

/-- A stream of successes produces no failure lines. -/
theorem errMessages_eq_nil (ts : List (Canvas × TaskResult))
    (h : ∀ t ∈ ts, isOk t.2 = true) : errMessages ts = [] := by
  induction ts with
  | nil => simp [errMessages]
  | cons t ts ih =>
    obtain ⟨c, r⟩ := t
    cases r with
    | ok n => exact ih fun t ht => h t (List.mem_cons_of_mem _ ht)
    | err e => exact absurd (h (c, .err e) (List.mem_cons_self _ _)) (by simp [isOk])

/-! ## Selection-parsing lemmas -/

/-- An index is in a parsed selection exactly when some comma token
contributes it. -/
theorem parseParts_mem_iff {ts : List String} {l : List Int}
    (h : parseParts ts = some l) (x : Int) :
    x ∈ l ↔ ∃ p, p ∈ ts ∧ ∃ lp, convertPart p = some lp ∧ x ∈ lp := by
  induction ts generalizing l with
  | nil =>
    simp only [parseParts, Option.some.injEq] at h
    subst h
    simp
  | cons p ps ih =>
    simp only [parseParts] at h
    cases hp : convertPart p with
    | none => rw [hp] at h; cases h
    | some lp =>
      rw [hp] at h
      cases hps : parseParts ps with
      | none => rw [hps] at h; cases h
      | some rest =>
        rw [hps] at h
        simp only [Option.some.injEq] at h
        subst h
        rw [List.mem_append, ih hps]
        constructor
        · rintro (hx | ⟨q, hq, lq, hcq, hxq⟩)
          · exact ⟨p, List.mem_cons_self _ _, lp, hp, hx⟩
          · exact ⟨q, List.mem_cons_of_mem _ hq, lq, hcq, hxq⟩
        · rintro ⟨q, hq, lq, hcq, hxq⟩
          rcases List.mem_cons.mp hq with rfl | hq'
          · left
            rw [hp] at hcq
            injection hcq with h'
            subst h'
            exact hxq
          · right
            exact ⟨q, hq', lq, hcq, hxq⟩

/-- A bad comma token makes the whole parse fail. -/
theorem parseParts_none_of_mem {ts : List String} {p : String}
    (hmem : p ∈ ts) (hp : convertPart p = none) : parseParts ts = none := by
  induction ts with
  | nil => cases hmem
  | cons q qs ih =>
    rcases List.mem_cons.mp hmem with rfl | h'
    · simp [parseParts, hp]
    · simp only [parseParts]
      cases hq : convertPart q with
      | none => rfl
      | some l => rw [ih h']
  
/-- A bad hyphen piece makes its token's integer list fail. -/
theorem parseInts_none_of_mem {ts : List String} {t : String}
    (hmem : t ∈ ts) (ht : parse_int t = none) : parseInts ts = none := by
  induction ts with
  | nil => cases hmem
  | cons q qs ih =>
    rcases List.mem_cons.mp hmem with rfl | h'
    · simp [parseInts, ht]
    · simp only [parseInts]
      cases hq : parse_int q with
      | none => rfl
      | some a => rw [ih h']

/-- A non-numeric hyphen piece makes its comma token fail. -/
theorem convertPart_none_of_token {part tok : String}
    (hmem : tok ∈ splitOnce part) (ht : parse_int tok = none) :
    convertPart part = none := by
  simp [convertPart, parseInts_none_of_mem hmem ht]

/-- A reversed range is silently empty: `range(a, b + 1)` with `b < a`. -/
theorem pyRange_eq_nil {a b : Int} (h : b < a) : pyRange a b = [] := by
  have : (b + 1 - a).toNat = 0 := by omega
  simp [pyRange, this]

/-! ## Range-validation lemmas -/

/-- Every index of a selection that passes the inlined check of `main`
satisfies `0 ≤ p < len`. -/
theorem validatePages_ok_bounds {ps : List Int} {len : Nat} {u : Unit}
    (h : validatePages ps len = .ok u) :
    ∀ p ∈ ps, 0 ≤ p ∧ p < (len : Int) := by
  induction ps with
  | nil => intro p hp; cases hp
  | cons q qs ih =>
    intro p hp
    simp only [validatePages] at h
    by_cases hq : q < 0 ∨ (len : Int) ≤ q
    · rw [if_pos hq] at h; cases h
    · rw [if_neg hq] at h
      push_neg at hq
      rcases List.mem_cons.mp hp with rfl | h'
      · exact ⟨hq.1, lt_of_lt_of_le (lt_of_not_le (fun hle => absurd hle (not_le.mpr hq.2))) le_rfl⟩
      · exact ih h p h'

/-- An index accepted by the check resolves through `canvases[p - 1]`. -/
theorem pyIdx_some_of_bounds {cs : List Canvas} {p : Int}
    (h0 : 0 ≤ p) (h1 : p < (cs.length : Int)) :
    ∃ c, pyIdx cs (p - 1) = some c := by
  unfold pyIdx
  by_cases hneg : p - 1 < 0
  · have hp0 : p = 0 := by omega
    subst hp0
    have hlen : 1 ≤ cs.length := by omega
    rw [if_pos hneg]
    have hj : (0 - 1 + (cs.length : Int)) = (cs.length : Int) - 1 := by ring
    rw [hj]
    have hnn : ¬((cs.length : Int) - 1 < 0) := by omega
    rw [if_neg hnn]
    have htn : ((cs.length : Int) - 1).toNat = cs.length - 1 := by omega
    rw [htn]
    have hlt : cs.length - 1 < cs.length := by omega
    exact ⟨cs.get ⟨cs.length - 1, hlt⟩, List.get?_eq_get hlt⟩
  · rw [if_neg hneg]
    have hnn : ¬(p - 1 < 0) := hneg
    rw [if_neg hnn]
    have hlt : (p - 1).toNat < cs.length := by omega
    exact ⟨cs.get ⟨(p - 1).toNat, hlt⟩, List.get?_eq_get hlt⟩

/-- A fully in-bounds selection always resolves to a canvas list. -/
theorem runSelect_isSome {ps : List Int} {cs : List Canvas}
    (h : ∀ p ∈ ps, 0 ≤ p ∧ p < (cs.length : Int)) :
    ∃ l, runSelect ps cs = some l := by
  induction ps with
  | nil => exact ⟨[], rfl⟩
  | cons q qs ih =>
    obtain ⟨hq0, hq1⟩ := h q (List.mem_cons_self _ _)
    obtain ⟨c, hc⟩ := pyIdx_some_of_bounds hq0 hq1
    obtain ⟨l, hl⟩ := ih fun p hp => h p (List.mem_cons_of_mem _ hp)
    exact ⟨c :: l, by simp [runSelect, hc, hl]⟩

/-- Negative index `-1` is Python for the last element. -/
theorem pyIdx_neg_one {cs : List Canvas} (h : cs ≠ []) :
    pyIdx cs (-1) = some (cs.getLast h) := by
  have hlen : 1 ≤ cs.length := List.length_pos.mpr h
  unfold pyIdx
  have hneg : (-1 : Int) < 0 := by omega
  rw [if_pos hneg]
  have hj : (-1 + (cs.length : Int)) = (cs.length : Int) - 1 := by ring
  rw [hj]
  have hnn : ¬((cs.length : Int) - 1 < 0) := by omega
  rw [if_neg hnn]
  have htn : ((cs.length : Int) - 1).toNat = cs.length - 1 := by omega
  rw [htn]
  have hlt : cs.length - 1 < cs.length := by omega
  rw [List.get?_eq_get hlt]
  congr 1
  simp [List.getLast_eq_getElem, List.get_eq_getElem]

/-- Once the selection text parses, the command body always returns normally:
every `RuntimeError` is either caught per task inside the loop or caught and
merely printed by the `except` handler of `main`. -/
theorem mainBody_some_exit_zero (env : Env) (url : String) (ps : List Int) :
    (mainBody env url (some ps)).exitCode = 0 := by
  rcases hd : mkDownloader env url with e | d
  · simp [mainBody, hd]
  · rcases hv : validatePages ps d.canvases.length with e | u
    · simp [mainBody, hd, hv]
    · have hb : ∀ p ∈ ps.dedup, 0 ≤ p ∧ p < (d.canvases.length : Int) :=
        fun p hp => validatePages_ok_bounds hv p (List.mem_dedup.mp hp)
      obtain ⟨l, hl⟩ := runSelect_isSome hb
      simp [mainBody, hd, hv, runModel, planCanvases, hl]

/-- A run whose optional selection text parses exits with status 0, whatever
the individual task outcomes are. -/
theorem mainModel_exit_zero {env : Env} {url t : String} {ps : List Int}
    (h : convert t = some ps) : (mainModel env url (some t)).exitCode = 0 := by
  simp [mainModel, h, mainBody_some_exit_zero]

/-! ## Claim theorems -/

/-- Claim C1: the spec says a selection is accepted iff every index lies in
`[1, L]`, with out-of-range indices rejected fatally before any download.
The code's inlined check `p < 0 or p >= len(canvases)` is off by one against
the 1-based selection indices: the valid last index `L` is rejected and the
invalid index `0` is accepted (and then downloads the last page).  Evaluated
here at catalog length 3 with index 3, and end to end on the two-canvas
fixture with selections "2" and "0". -/
theorem validatePages_off_by_one :
    validatePages [3] 3 = .error (.pageOutOfRange 3) ∧
    (1 ≤ (3 : Int) ∧ (3 : Int) ≤ (3 : Nat)) ∧
    validatePages [0] 3 = .ok () ∧ ¬(1 ≤ (0 : Int)) ∧
    (mainModel envOK urlOK (some "2")).fatalErr = some (.pageOutOfRange 2) ∧
    (mainModel envOK urlOK (some "0")).fatalErr = none ∧
    (mainModel envOK urlOK (some "0")).tasksCreated = 1 :=
  ⟨rfl, ⟨by decide, by decide⟩, rfl, by decide, rfl, rfl, rfl⟩

/-- Claim C2: the spec says a fatal error (manifest resolution, metadata
lookup, selection validation) exits non-zero with a message on the error
stream, and normal completion exits 0.  The message is produced, but `main`
catches the `RuntimeError` and returns normally, so the process exits 0 on
every fatal path; only the "normal completion exits 0" half holds. -/
theorem fatal_error_exit_status :
    ((mainModel env404 urlOK none).fatalErr = some (.httpError 404) ∧
     (mainModel env404 urlOK none).exitCode = 0) ∧
    ((mainModel envNoMeta urlOK none).fatalErr =
        some (.metadataMissing "Contesto archivistico") ∧
     (mainModel envNoMeta urlOK none).exitCode = 0) ∧
    ((mainModel envOK urlOK (some "99")).fatalErr = some (.pageOutOfRange 99) ∧
     (mainModel envOK urlOK (some "99")).exitCode = 0) ∧
    ((mainModel envOK urlOK none).fatalErr = none ∧
     (mainModel envOK urlOK none).exitCode = 0) :=
  ⟨⟨rfl, rfl⟩, ⟨rfl, rfl⟩, ⟨rfl, rfl⟩, ⟨rfl, rfl⟩⟩

/-- Claim C3 counterexample: parsing the malformed range "5-3" (start greater
than end) does not fail; it silently yields the empty selection. -/
theorem convert_reversed_range_silently_empty :
    convert "5-3" = some [] ∧ (3 : Int) < 5 := ⟨rfl, by decide⟩

/-- Claim C3 as amended: a non-numeric token anywhere in the selection text is
a fatal parse failure, but a range whose start exceeds its end is accepted
and silently contributes an empty index range (`range(a, b + 1)` with
`b < a`), as "5-3" shows. -/
theorem selection_syntax_behavior :
    (∀ (s part tok : String), part ∈ splitOnChar ',' s → tok ∈ splitOnce part →
        parse_int tok = none → convert s = none) ∧
    (∀ a b : Int, b < a → pyRange a b = []) ∧
    convert "5-3" = some [] := by
  refine ⟨?_, ?_, rfl⟩
  · intro s part tok hpart htok hbad
    unfold convert
    exact parseParts_none_of_mem hpart (convertPart_none_of_token htok hbad)
  · intro a b h
    exact pyRange_eq_nil h

/-- Witness for the amended C3 at concrete inputs. -/
theorem selection_syntax_behavior_witness :
    convert "x" = none ∧ pyRange 9 2 = [] :=
  ⟨selection_syntax_behavior.1 "x" "x" "x" (by decide) (by decide) rfl,
   selection_syntax_behavior.2.1 9 2 (by decide)⟩

/-- Claim C4: "1,3-5,7" parses to exactly the indices 1, 3, 4, 5, 7, whose
set is the resolved selection; and the resolved index set of any two
well-formed token lists with the same tokens (any order, any duplication) is
identical — `set(pages)` in `main` collapses duplicates. -/
theorem selection_parse_order_independent :
    convert "1,3-5,7" = some [1, 3, 4, 5, 7] ∧
    ([1, 3, 4, 5, 7] : List Int).toFinset = {1, 3, 4, 5, 7} ∧
    ∀ (ts ts' : List String) (l l' : List Int),
      (∀ p, p ∈ ts ↔ p ∈ ts') →
      parseParts ts = some l → parseParts ts' = some l' →
      l.toFinset = l'.toFinset := by
  refine ⟨by decide, by decide, ?_⟩
  intro ts ts' l l' hmem h h'
  ext x
  simp only [List.mem_toFinset]
  rw [parseParts_mem_iff h x, parseParts_mem_iff h' x]
  constructor
  · rintro ⟨p, hp, rest⟩
    exact ⟨p, (hmem p).mp hp, rest⟩
  · rintro ⟨p, hp, rest⟩
    exact ⟨p, (hmem p).mpr hp, rest⟩

/-- Witness for C4: a reordered, duplicated token list resolves to the same
index set. -/
theorem selection_parse_order_independent_witness :
    ([1, 2, 1] : List Int).toFinset = ([2, 1] : List Int).toFinset :=
  selection_parse_order_independent.2.2 ["1", "2", "1"] ["2", "1"] [1, 2, 1] [2, 1]
    (by intro p; constructor <;> (intro h; simp at h ⊢; tauto)) rfl rfl

/-- Claim C5: with no selection (`pages is None`), `run` submits exactly the
full catalog sequence, in catalog order, and the resolved catalog length
matches; the progress counter processes one completion per catalog entry. -/
theorem no_selection_full_catalog :
    ∀ (env : Env) (url : String) (d : Downloader),
      mkDownloader env url = .ok d →
      planCanvases d none = some d.canvases ∧
      d.galleryLength = d.canvases.length ∧
      runModel env d none =
        some (runLoop (d.canvases.map fun c => (c, threadMain env c)) ⟨0, 0, []⟩) ∧
      (runLoop (d.canvases.map fun c => (c, threadMain env c)) ⟨0, 0, []⟩).progress =
        d.canvases.length := by
  intro env url d h
  refine ⟨rfl, ?_, rfl, ?_⟩
  · unfold mkDownloader at h
    split at h
    · cases h
    · split at h
      · cases h
      · split at h
        · cases h
        · injection h with h
          subst h
          rfl
  · rw [runLoop_progress]
    simp

/-- Witness for C5 on the two-canvas fixture. -/
theorem no_selection_full_catalog_witness :
    planCanvases dOK none = some dOK.canvases ∧
    dOK.galleryLength = dOK.canvases.length :=
  ⟨(no_selection_full_catalog envOK urlOK dOK rfl).1,
   (no_selection_full_catalog envOK urlOK dOK rfl).2.1⟩

/-- Claim C6: after all completions are consumed, `gallery_size` equals the
sum of the byte counts of exactly the successful outcomes (failures
contribute nothing), and no aggregation step ever decreases it: from any
intermediate state the final total is at least the current one. -/
theorem gallery_size_sums_successes :
    ∀ (ts : List (Canvas × TaskResult)) (st : RunState),
      (runLoop ts ⟨0, 0, []⟩).gallerySize = sumSuccess ts ∧
      st.gallerySize ≤ (runLoop ts st).gallerySize := by
  intro ts st
  constructor
  · rw [runLoop_gallerySize]
    simp
  · rw [runLoop_gallerySize]
    omega

/-- Claim C7: a single failing task among successes yields exactly one
failure line, tagged with that task's label; every other task still
completes (progress counts all of them, the total sums all their bytes); and
a run whose selection text parsed exits 0 regardless of task failures. -/
theorem single_failure_isolated :
    ∀ (pre post : List (Canvas × TaskResult)) (c : Canvas) (e : TaskErr),
      (∀ t ∈ pre, isOk t.2 = true) → (∀ t ∈ post, isOk t.2 = true) →
      ((runLoop (pre ++ (c, .err e) :: post) ⟨0, 0, []⟩).progress =
          pre.length + 1 + post.length ∧
       (runLoop (pre ++ (c, .err e) :: post) ⟨0, 0, []⟩).messages = [(c.label, e)] ∧
       (runLoop (pre ++ (c, .err e) :: post) ⟨0, 0, []⟩).gallerySize =
          sumSuccess pre + sumSuccess post) ∧
      ∀ (env : Env) (url t : String) (ps : List Int),
        convert t = some ps → (mainModel env url (some t)).exitCode = 0 := by
  intro pre post c e hpre hpost
  refine ⟨⟨?_, ?_, ?_⟩, ?_⟩
  · rw [runLoop_progress]
    simp
    omega
  · rw [runLoop_messages]
    simp [errMessages_append, errMessages_eq_nil _ hpre, errMessages_eq_nil _ hpost,
      errMessages]
  · rw [runLoop_gallerySize]
    simp [sumSuccess_append, sumSuccess]
  · intro env url t ps h
    exact mainModel_exit_zero h

/-- Witness for C7: three tasks, the middle one failing with HTTP 404. -/
theorem single_failure_isolated_witness :
    (runLoop [(⟨"p1", "u1"⟩, .ok 100), (⟨"p2", "u2"⟩, .err (.httpError "u2" 404)),
              (⟨"p3", "u3"⟩, .ok 300)] ⟨0, 0, []⟩).messages =
      [("p2", .httpError "u2" 404)] :=
  (single_failure_isolated [(⟨"p1", "u1"⟩, .ok 100)] [(⟨"p3", "u3"⟩, .ok 300)]
      ⟨"p2", "u2"⟩ (.httpError "u2" 404) (by decide) (by decide)).1.2.1

/-- Claim C8 counterexample: HTTP 201 lies in the 2xx class, yet both the
manifest fetch and a task's image fetch fail on it — the code requires
status exactly 200, not the 2xx class. -/
theorem status_2xx_claim_false :
    is2xx 201 = true ∧
    getIiifManifest env201 urlOK = .error (.httpError 201) ∧
    threadMain env201 ⟨"page 1", "https://img.example/1"⟩ =
      .err (.httpError "https://img.example/1" 201) :=
  ⟨by decide, rfl, rfl⟩

/-- Claim C8 as amended: the manifest fetch and each per-task image fetch
pass the status gate exactly when the status equals 200; any other status
(other 2xx statuses included) fails with the error carrying that status. -/
theorem status_check_requires_200 :
    ∀ (env : Env) (url : String) (c : Canvas),
      ((env.fetch url).status ≠ 200 →
        getIiifManifest env url = .error (.httpError (env.fetch url).status)) ∧
      (∀ m, getIiifManifest env url = .ok m → (env.fetch url).status = 200) ∧
      ((env.imageFetch c.url).status ≠ 200 →
        threadMain env c = .err (.httpError c.url (env.imageFetch c.url).status)) ∧
      ((env.imageFetch c.url).status = 200 →
        ∀ u s, threadMain env c ≠ .err (.httpError u s)) := by
  intro env url c
  refine ⟨?_, ?_, ?_, ?_⟩
  · intro h
    simp [getIiifManifest, h]
  · intro m hm
    by_contra hne
    simp [getIiifManifest, hne] at hm
  · intro h
    simp [threadMain, h]
  · intro h u s
    simp only [threadMain, h]
    simp only [ne_eq, not_true_eq_false, if_false]
    cases hg : env.guessExtension (env.imageFetch c.url).contentType with
    | none => simp
    | some ext => simp

/-- Witness for the amended C8: status 404 fails both fetch kinds. -/
theorem status_check_requires_200_witness :
    getIiifManifest env404 urlOK = .error (.httpError 404) ∧
    threadMain envOK ⟨"page 2", "https://img.example/2"⟩ =
      .err (.httpError "https://img.example/2" 404) :=
  ⟨(status_check_requires_200 env404 urlOK ⟨"page 2", "https://img.example/2"⟩).1
      (by decide),
   (status_check_requires_200 envOK urlOK ⟨"page 2", "https://img.example/2"⟩).2.2.1
      (by decide)⟩

/-- Claim C9: a gallery page with no `manifestId` line fails with
`ManifestNotFound` and zero download tasks are created — but the run then
exits 0, not non-zero, because `main` catches the error and returns. -/
theorem manifest_not_found_run :
    getIiifManifest envNoMarker urlOK = .error .manifestNotFound ∧
    (mainModel envNoMarker urlOK none).fatalErr = some .manifestNotFound ∧
    (mainModel envNoMarker urlOK none).tasksCreated = 0 ∧
    (mainModel envNoMarker urlOK none).runState = none ∧
    (mainModel envNoMarker urlOK none).exitCode = 0 :=
  ⟨rfl, rfl, rfl, rfl, rfl⟩

/-- Claim C10: for a non-empty catalog, index 0 passes the range check of
`main` and `canvases[0 - 1]` is Python for the last canvas, so page 0
downloads the final page instead of being rejected. -/
theorem page_zero_resolves_last :
    ∀ (cs : List Canvas) (h : cs ≠ []),
      validatePages [0] cs.length = .ok () ∧
      runSelect [0] cs = some [cs.getLast h] := by
  intro cs h
  have hlen : 1 ≤ cs.length := List.length_pos.mpr h
  constructor
  · rw [show validatePages [0] cs.length =
        if (0 : Int) < 0 ∨ (cs.length : Int) ≤ 0 then .error (.pageOutOfRange 0)
        else validatePages [] cs.length from rfl]
    rw [if_neg (by omega)]
    rfl
  · rw [show runSelect [0] cs =
        match pyIdx cs ((0 : Int) - 1) with
        | none => none
        | some c =>
          match runSelect [] cs with
          | none => none
          | some rest => some (c :: rest) from rfl]
    rw [show ((0 : Int) - 1) = -1 by ring, pyIdx_neg_one h]
    rfl

/-- Witness for C10 on the two-canvas fixture: selecting page 0 resolves to
the second (last) canvas. -/
theorem page_zero_resolves_last_witness :
    validatePages [0] manifestOK.canvases.length = .ok () ∧
    runSelect [0] manifestOK.canvases =
      some [manifestOK.canvases.getLast (by decide)] :=
  page_zero_resolves_last manifestOK.canvases (by decide)
